import Mathlib

/-!
Verification of the two upload test scripts
(`scripts/step1-local-api-local-sc2reader.py` and `scripts/test-upload-flow.py`).

The scripts are embedded shallowly: every effectful ingredient (the two
`datetime.utcnow()` clock readings, the filesystem existence check, the `lsof`
port query, and the outcome of the single HTTP POST) is passed in explicitly,
and each run is summarised by a trace recording the printed lines, whether a
token was signed, whether the HTTP call was attempted, and how the invocation
ended (boolean return or `sys.exit`).
-/

set_option autoImplicit false
set_option maxRecDepth 8192

namespace UploadFlow

/-- A parsed JSON value, as produced by `response.json()`. -/
inductive Json where
  | null
  | bool (b : Bool)
  | str (s : String)
  | num (n : Int)
  | arr (elems : List Json)
  | obj (fields : List (String × Json))

/-- The Python exceptions that the scripts can raise while inspecting a
response body; all of them are caught by the scripts' generic handlers. -/
inductive Exc where
  | keyError (k : String)
  | typeError
  | attributeError
  | jsonDecodeError
deriving DecidableEq, Repr

/-- The Python single-quote character, built from its code point. -/
def pyQuote : String := String.singleton (Char.ofNat 39)

/-- First binding of a key in a parsed JSON object (Python dict lookup). -/
def lookupField (fields : List (String × Json)) (k : String) : Option Json :=
  match fields with
  | [] => none
  | (k2, v) :: rest => if k2 = k then some v else lookupField rest k

/-- Python `value.get(key)`: `None` when the key is absent, `AttributeError`
when the receiver is not a dict. -/
def jsonGet : Json → String → Except Exc Json
  | .obj fields, k => .ok ((lookupField fields k).getD .null)
  | _, _ => .error .attributeError

/-- Python `value.get(key, default)`. -/
def jsonGetD : Json → String → Json → Except Exc Json
  | .obj fields, k, d => .ok ((lookupField fields k).getD d)
  | _, _, _ => .error .attributeError

/-- Python `value[key]`: `KeyError` when the key is absent from a dict,
`TypeError` when the receiver is not a dict. -/
def jsonIndex : Json → String → Except Exc Json
  | .obj fields, k =>
    match lookupField fields k with
    | some v => .ok v
    | none => .error (.keyError k)
  | _, _ => .error .typeError

/-- Python truthiness of a parsed JSON value. -/
def jsonTruthy : Json → Bool
  | .null => false
  | .bool b => b
  | .str s => s != ""
  | .num n => n != 0
  | .arr es => !es.isEmpty
  | .obj fs => !fs.isEmpty

mutual
/-- Python `repr()` of a parsed JSON value (escaping inside string literals is
not modelled; the scripts only interpolate whole values). -/
def jsonRepr : Json → String
  | .null => "None"
  | .bool true => "True"
  | .bool false => "False"
  | .str s => pyQuote ++ s ++ pyQuote
  | .num n => toString n
  | .arr es => "[" ++ String.intercalate ", " (jsonReprList es) ++ "]"
  | .obj fs => "\x7b" ++ String.intercalate ", " (jsonReprFields fs) ++ "\x7d"

/-- `repr()` of the elements of a JSON array. -/
def jsonReprList : List Json → List String
  | [] => []
  | j :: js => jsonRepr j :: jsonReprList js

/-- `repr()` of the bindings of a JSON object. -/
def jsonReprFields : List (String × Json) → List String
  | [] => []
  | (k, v) :: fs => (pyQuote ++ k ++ pyQuote ++ ": " ++ jsonRepr v) :: jsonReprFields fs
end

/-- Python `str()` of a value interpolated into an f-string. -/
def jsonToStr : Json → String
  | .str s => s
  | j => jsonRepr j

/-- The `str()` text of an exception, as interpolated by the generic handlers
(the exact wording of library exception texts is not modelled). -/
def excMessage : Exc → String
  | .keyError k => pyQuote ++ k ++ pyQuote
  | .typeError => "string indices must be integers"
  | .attributeError => "object has no attribute get"
  | .jsonDecodeError => "Expecting value: line 1 column 1 (char 0)"

/-- The observable outcome of the single `requests.post` call: a raised
connection error, a raised timeout, or a response with a status code, an
optional parsed JSON body (`none` when `response.json()` raises) and the raw
body text. -/
inductive HttpOutcome where
  | connectionError
  | timeoutError
  | response (status : Nat) (jsonBody : Option Json) (text : String)

/-- How one runner invocation ends. -/
inductive StepOutcome where
  | exited (code : Nat)
  | returned (b : Bool)
deriving DecidableEq, Repr

/-- Everything observable about one runner invocation. -/
structure RunTrace where
  messages : List String
  tokenIssued : Bool
  networkCalled : Bool
  outcome : StepOutcome
deriving Repr

/-- Python truthiness of an `os.getenv` result: both `None` and the empty
string fail the scripts' `if not SECRET` checks. -/
def envTruthy : Option String → Bool
  | none => false
  | some s => s != ""

/-- The decoded claims of an issued JWT. `iat` and `exp` are the integer Unix
timestamps obtained by decoding: PyJWT serialises each `datetime` claim as its
whole-second Unix timestamp. -/
structure TokenClaims where
  userId : String
  type : String
  roles : List String
  iat : Nat
  exp : Nat
deriving DecidableEq, Repr

/-- The payload dict built by `generate_token` in both scripts. `iatNow` and
`expNow` are the whole-second values of the two separate `datetime.utcnow()`
calls: the first feeds `iat`, the second feeds `exp` (plus
`timedelta(hours=1)`, i.e. 3600 seconds). -/
def tokenPayload (userId roleId : String) (iatNow expNow : Nat) : TokenClaims :=
  { userId := userId
    type := "uploader"
    roles := [roleId]
    iat := iatNow
    exp := expNow + 3600 }

/-- Python `secret.replace(BACKSLASH DOLLAR, DOLLAR)` on the character list:
non-overlapping occurrences, scanned left to right. -/
def replaceBackslashDollar : List Char → List Char
  | [] => []
  | [c] => [c]
  | c1 :: c2 :: rest =>
    if c1 == '\\' && c2 == '$' then '$' :: replaceBackslashDollar rest
    else c1 :: replaceBackslashDollar (c2 :: rest)

/-- Whether the character list contains the two-character sequence
backslash-dollar. -/
def hasBackslashDollar : List Char → Bool
  | [] => false
  | [_] => false
  | c1 :: c2 :: rest => (c1 == '\\' && c2 == '$') || hasBackslashDollar (c2 :: rest)

/-- Whether `needle` occurs as a contiguous character substring of `hay`. -/
def strHasSub (hay needle : String) : Bool :=
  hay.toList.tails.any (fun t => needle.toList.isPrefixOf t)

/-- The HTTP-200 branch shared verbatim by both scripts: inspect the parsed
body, accumulating the printed lines; a raised exception is returned so that
the enclosing generic handler can catch it. -/
def successBranch (data : Json) : List String × Except Exc Bool :=
  match jsonGet data "success" with
  | .error e => ([], .error e)
  | .ok sv =>
    if jsonTruthy sv then
      let m0 := "✅ SUCCESS! Replay uploaded and analyzed"
      match jsonIndex data "replay" with
      | .error e => ([m0], .error e)
      | .ok rep =>
        match jsonIndex rep "id" with
        | .error e => ([m0], .error e)
        | .ok idv =>
          let m1 := "   Replay ID: " ++ jsonToStr idv
          match jsonGet rep "fingerprint" with
          | .error e => ([m0, m1], .error e)
          | .ok fpv =>
            if jsonTruthy fpv then
              match jsonGet fpv "matchup" with
              | .error e => ([m0, m1], .error e)
              | .ok mu =>
                let m2 := "   Matchup: " ++ jsonToStr mu
                match jsonGet fpv "race" with
                | .error e => ([m0, m1, m2], .error e)
                | .ok rc =>
                  let m3 := "   Race: " ++ jsonToStr rc
                  match jsonGet fpv "player_name" with
                  | .error e => ([m0, m1, m2, m3], .error e)
                  | .ok pn =>
                    let m4 := "   Player: " ++ jsonToStr pn
                    match (jsonGetD fpv "metadata" (.obj [])).bind
                        (fun md => jsonGet md "map") with
                    | .error e => ([m0, m1, m2, m3, m4], .error e)
                    | .ok mp =>
                      ([m0, m1, m2, m3, m4, "   Map: " ++ jsonToStr mp], .ok true)
            else ([m0, m1], .ok true)
    else (["❌ FAILED: " ++ jsonToStr data], .ok false)

/-- The non-200 branch shared verbatim by both scripts: print the status
failure line, then either the parsed JSON error body or the raw text truncated
to 200 characters. -/
def non200Branch (status : Nat) (body : Option Json) (text : String) :
    List String × Bool :=
  let m0 := "❌ FAILED: HTTP " ++ toString status
  match body with
  | some j => ([m0, "   Error: " ++ jsonToStr j], false)
  | none => ([m0, "   Response: " ++ text.take 200], false)

namespace Script1

/-- `NEXT_API_URL` of the first script. -/
def NEXT_API_URL : String := "http://localhost:3000"

/-- `SC2READER_API_URL` of the first script. -/
def SC2READER_API_URL : String := "http://localhost:8000"

/-- `generate_token` of the first script: the claims built by `tokenPayload`
together with the signing key, which is the raw `AUTH_SECRET`. -/
def generate_token (secret userId roleId : String) (iatNow expNow : Nat) :
    TokenClaims × String :=
  (tokenPayload userId roleId iatNow expNow, secret)

/-- The body of the first script's `try` block together with its two
exception handlers (`ConnectionError`, then the generic `Exception`): the
lines printed from the status line on, and the returned boolean. -/
def postResult1 (apiKey : String) : HttpOutcome → List String × Bool
  | .connectionError =>
    (["❌ Connection Error: Could not connect to " ++ NEXT_API_URL,
      "   Make sure Next.js dev server is running with:",
      "   SC2READER_API_URL=" ++ pyQuote ++ SC2READER_API_URL ++ pyQuote ++
        " SC2READER_API_KEY=" ++ pyQuote ++ apiKey ++ pyQuote ++ " npm run dev"],
     false)
  | .timeoutError => (["❌ Error: " ++ "Request timed out"], false)
  | .response status body text =>
    let m0 := "Status: " ++ toString status
    if status = 200 then
      match body with
      | none => ([m0, "❌ Error: " ++ excMessage .jsonDecodeError], false)
      | some data =>
        let sb := successBranch data
        match sb.2 with
        | .ok b => (m0 :: sb.1, b)
        | .error e => (m0 :: sb.1 ++ ["❌ Error: " ++ excMessage e], false)
    else
      let nb := non200Branch status body text
      (m0 :: nb.1, nb.2)

/-- `upload_replay` of the first script. The secret and API key have already
passed the module-level checks; `fileExists` is the result of
`os.path.exists(replay_path)` and `http` the outcome of the POST. -/
def upload_replay (secret apiKey userId roleId : String) (iatNow expNow : Nat)
    (replayPath : String) (fileExists : Bool) (http : HttpOutcome) : RunTrace :=
  let _token := generate_token secret userId roleId iatNow expNow
  let header := ["🔑 Generated local JWT token",
    "📤 Testing upload to " ++ NEXT_API_URL ++ "/api/my-replays",
    "📊 Using sc2reader at " ++ SC2READER_API_URL,
    "📁 File: " ++ replayPath, ""]
  if !fileExists then
    { messages := header ++ ["❌ Error: Replay file not found: " ++ replayPath]
      tokenIssued := true
      networkCalled := false
      outcome := .returned false }
  else
    { messages := header ++ (postResult1 apiKey http).1
      tokenIssued := true
      networkCalled := true
      outcome := .returned (postResult1 apiKey http).2 }

/-- The first script end to end: the module-level secret checks followed by
the `__main__` block (banner, `upload_replay`, final `sys.exit`). -/
def script1Main (authSecret apiKey : Option String) (userId roleId : String)
    (iatNow expNow : Nat) (replayPath : String) (fileExists : Bool)
    (http : HttpOutcome) : RunTrace :=
  if !envTruthy authSecret then
    { messages := ["❌ Error: AUTH_SECRET not found in .env.local"]
      tokenIssued := false
      networkCalled := false
      outcome := .exited 1 }
  else if !envTruthy apiKey then
    { messages := ["❌ Error: SC2READER_API_KEY not found in .env.local"]
      tokenIssued := false
      networkCalled := false
      outcome := .exited 1 }
  else
    let bar := String.mk (List.replicate 60 '=')
    let banner := [bar, "STEP 1: Local Next.js API → Local sc2reader", bar, ""]
    let r := upload_replay (authSecret.getD "") (apiKey.getD "") userId roleId
      iatNow expNow replayPath fileExists http
    { messages := banner ++ r.messages
      tokenIssued := r.tokenIssued
      networkCalled := r.networkCalled
      outcome :=
        match r.outcome with
        | .returned b => .exited (if b then 0 else 1)
        | .exited c => .exited c }

end Script1

namespace Script2

/-- `LOCAL_NEXT_API` of the second script. -/
def LOCAL_NEXT_API : String := "http://localhost:3000"

/-- `PROD_NEXT_API` of the second script. -/
def PROD_NEXT_API : String := "https://www.ladderlegendsacademy.com"

/-- `LOCAL_SC2READER` of the second script. -/
def LOCAL_SC2READER : String := "http://localhost:8000"

/-- `PROD_SC2READER` of the second script. -/
def PROD_SC2READER : String := "https://sc2-replay-analyzer-gold.vercel.app/"

/-- One entry of the `TESTS` dict: a scenario descriptor. -/
structure TestConfig where
  name : String
  api_url : String
  sc2reader_url : String
  requires : List String
deriving DecidableEq, Repr

/-- `TESTS["1"]`. -/
def test1 : TestConfig :=
  { name := "Step 1: Local API → Local sc2reader"
    api_url := LOCAL_NEXT_API
    sc2reader_url := LOCAL_SC2READER
    requires := ["next:3000", "sc2reader:8000"] }

/-- `TESTS["2"]`. -/
def test2 : TestConfig :=
  { name := "Step 2: Local API → Production sc2reader"
    api_url := LOCAL_NEXT_API
    sc2reader_url := PROD_SC2READER
    requires := ["next:3000"] }

/-- `TESTS["3"]`. -/
def test3 : TestConfig :=
  { name := "Step 3: Production API → Production sc2reader"
    api_url := PROD_NEXT_API
    sc2reader_url := PROD_SC2READER
    requires := [] }

/-- The `TESTS` dict, in insertion order. -/
def TESTS : List (String × TestConfig) := [("1", test1), ("2", test2), ("3", test3)]

/-- `TESTS[key]`; the collected keys always come from `TESTS` itself. -/
def configOf (key : String) : TestConfig :=
  ((TESTS.lookup key).getD { name := "", api_url := "", sc2reader_url := "", requires := [] })

/-- `str()` of an `os.getenv` result interpolated into an f-string. -/
def pyOptStr : Option String → String
  | none => "None"
  | some s => s

/-- `req.split(":")` unpacked into `(service, port)`; every entry of a
`requires` list contains exactly one colon. -/
def splitReq (req : String) : String × String :=
  match req.splitOn ":" with
  | [service, port] => (service, port)
  | _ => ("", "")

/-- The remediation lines `check_requirements` prints for one missing
`service:port` entry. -/
def startCommands (cfg : TestConfig) (apiKey : Option String) (req : String) :
    List String :=
  let service := (splitReq req).1
  if service = "next" then
    ["  Start Next.js with:",
     "    env SC2READER_API_URL=\"" ++ cfg.sc2reader_url ++ "\" \\",
     "        SC2READER_API_KEY=\"" ++ pyOptStr apiKey ++ "\" \\",
     "        npm run dev"]
  else if service = "sc2reader" then
    ["  Start sc2reader with:",
     "    cd /Users/chadfurman/projects/sc2reader && \\",
     "    source venv/bin/activate && \\",
     "    python -m uvicorn api.index:app --reload --port 8000"]
  else []

/-- The required entries whose port is not listening; `portOpen` stands for
`check_process_running`, the external `lsof` query. -/
def missingOf (cfg : TestConfig) (portOpen : String → Bool) : List String :=
  cfg.requires.filter (fun req => !portOpen (splitReq req).2)

/-- `check_requirements`: the printed lines and whether every required port is
listening. -/
def check_requirements (cfg : TestConfig) (apiKey : Option String)
    (portOpen : String → Bool) : List String × Bool :=
  let missing := missingOf cfg portOpen
  if missing.isEmpty then ([], true)
  else
    (["❌ Missing required services: " ++ String.intercalate ", " missing, ""] ++
       missing.flatMap (startCommands cfg apiKey) ++ [""], false)

/-- The signing key `generate_token` of the second script actually uses,
assuming `AUTH_SECRET` passed its truthiness check: the secret with each
literal backslash-dollar sequence replaced by a dollar sign. -/
def generate_tokenKey (secret : String) : String :=
  String.mk (replaceBackslashDollar secret.toList)

/-- `generate_token` of the second script on the non-exiting path: the claims
built by `tokenPayload` together with the escaped signing key. -/
def generate_token (secret userId roleId : String) (iatNow expNow : Nat) :
    TokenClaims × String :=
  (tokenPayload userId roleId iatNow expNow, generate_tokenKey secret)

/-- The body of the second script's `try` block together with its three
exception handlers (`Timeout`, `ConnectionError`, then the generic
`Exception`): the lines printed from the status line on, and the returned
boolean. -/
def postResult2 (cfg : TestConfig) : HttpOutcome → List String × Bool
  | .connectionError =>
    (["❌ FAILED: Could not connect to " ++ cfg.api_url,
      "   Make sure the API server is running", ""], false)
  | .timeoutError => (["❌ FAILED: Request timed out after 60s", ""], false)
  | .response status body text =>
    let m0 := "📊 Status: " ++ toString status
    if status = 200 then
      match body with
      | none => ([m0, "❌ FAILED: " ++ excMessage .jsonDecodeError, ""], false)
      | some data =>
        let sb := successBranch data
        match sb.2 with
        | .ok b => (m0 :: sb.1 ++ [""], b)
        | .error e => (m0 :: sb.1 ++ ["❌ FAILED: " ++ excMessage e, ""], false)
    else
      let nb := non200Branch status body text
      (m0 :: nb.1 ++ [""], nb.2)

/-- `test_upload` of the second script. `portOpen` answers the `lsof` port
queries, `fileExists` is `os.path.exists(replay_path)`, and `http` the outcome
of the POST. -/
def test_upload (cfg : TestConfig) (authSecret apiKey : Option String)
    (userId roleId : String) (iatNow expNow : Nat)
    (portOpen : String → Bool) (replayPath : String) (fileExists : Bool)
    (http : HttpOutcome) : RunTrace :=
  let bar := String.mk (List.replicate 60 '=')
  let header := [bar, cfg.name, bar,
    "📤 API: " ++ cfg.api_url,
    "🔧 sc2reader: " ++ cfg.sc2reader_url,
    "📁 File: " ++ replayPath, ""]
  let req := check_requirements cfg apiKey portOpen
  if !req.2 then
    { messages := header ++ req.1
      tokenIssued := false
      networkCalled := false
      outcome := .returned false }
  else if !fileExists then
    { messages := header ++ ["❌ Error: Replay file not found: " ++ replayPath]
      tokenIssued := false
      networkCalled := false
      outcome := .returned false }
  else if !envTruthy authSecret then
    { messages := header ++ ["❌ Error: AUTH_SECRET not found in .env.local"]
      tokenIssued := false
      networkCalled := false
      outcome := .exited 1 }
  else
    let _token := generate_token (authSecret.getD "") userId roleId iatNow expNow
    { messages := header ++ ["🔑 Generated JWT token", "🚀 Uploading..."] ++
        (postResult2 cfg http).1
      tokenIssued := true
      networkCalled := true
      outcome := .returned (postResult2 cfg http).2 }

/-- Lexicographic comparison of character lists (Python string `<` by code
point). -/
def lexLt : List Char → List Char → Bool
  | [], [] => false
  | [], _ :: _ => true
  | _ :: _, [] => false
  | a :: as, b :: bs => if a < b then true else if b < a then false else lexLt as bs

/-- Insertion of a string into an already sorted list (ingredient of the model
of Python `sorted`). -/
def insertSorted (s : String) : List String → List String
  | [] => [s]
  | t :: ts => if lexLt t.toList s.toList then t :: insertSorted s ts else s :: t :: ts

/-- Python `sorted` on a list of strings, as insertion sort. -/
def sortStrings (l : List String) : List String := l.foldr insertSorted []

/-- `sorted(TESTS.keys())`. -/
def sortedKeys : List String := sortStrings (TESTS.map Prod.fst)

/-- The loop `for key in sorted(TESTS.keys()): results[key] = test_upload(...)`:
collects the per-scenario booleans in iteration order, propagating a
`sys.exit` raised by a scenario. -/
def collectResults (runOf : String → RunTrace) : List String → Except Nat (List (String × Bool))
  | [] => .ok []
  | k :: ks =>
    match (runOf k).outcome with
    | .exited c => .error c
    | .returned b =>
      match collectResults runOf ks with
      | .error c => .error c
      | .ok rest => .ok ((k, b) :: rest)

/-- The summary block of `main` for step `all`: one line per collected result. -/
def summaryLines (results : List (String × Bool)) : List String :=
  results.map (fun kb =>
    (configOf kb.1).name ++ ": " ++ (if kb.2 then "✅ PASS" else "❌ FAIL"))

/-- The outcome of `main` for step `all`. -/
structure AllRun where
  results : List (String × Bool)
  summary : List String
  exitCode : Nat
deriving DecidableEq, Repr

/-- `main` for step `all`: run every scenario in sorted key order, print the
summary, and exit 0 exactly when all results are true (a mid-loop `sys.exit`
ends the process with that code and no summary). -/
def mainAll (authSecret apiKey : Option String) (userId roleId : String)
    (iatNow expNow : Nat) (portOpen : String → Bool)
    (replayPath : String) (fileExists : Bool) (httpOf : String → HttpOutcome) :
    AllRun :=
  let runOf := fun k =>
    test_upload (configOf k) authSecret apiKey userId roleId iatNow expNow
      portOpen replayPath fileExists (httpOf k)
  match collectResults runOf sortedKeys with
  | .error c => { results := [], summary := [], exitCode := c }
  | .ok rs =>
    { results := rs
      summary := summaryLines rs
      exitCode := if rs.all (fun kb => kb.2) then 0 else 1 }

end Script2

/-- A status-200 body of the documented success shape, without fingerprint. -/
def replayBody (idStr : String) : Json :=
  .obj [("success", .bool true), ("replay", .obj [("id", .str idStr)])]

/-- A status-200 body of the documented success shape, with a fingerprint
sub-record. -/
def replayBodyFp (idStr mu rc pn mp : String) : Json :=
  .obj [("success", .bool true),
    ("replay", .obj [("id", .str idStr),
      ("fingerprint", .obj [("matchup", .str mu), ("race", .str rc),
        ("player_name", .str pn), ("metadata", .obj [("map", .str mp)])])])]

/-! ## Helper lemmas -/

theorem successBranch_replayBody (idStr : String) :
    successBranch (replayBody idStr) =
      (["✅ SUCCESS! Replay uploaded and analyzed", "   Replay ID: " ++ idStr],
       .ok true) := rfl

theorem successBranch_replayBodyFp (idStr mu rc pn mp : String) :
    successBranch (replayBodyFp idStr mu rc pn mp) =
      (["✅ SUCCESS! Replay uploaded and analyzed", "   Replay ID: " ++ idStr,
        "   Matchup: " ++ mu, "   Race: " ++ rc, "   Player: " ++ pn,
        "   Map: " ++ mp], .ok true) := rfl

theorem replaceBD_le_aux :
    ∀ (n : Nat) (l : List Char), l.length ≤ n →
      (replaceBackslashDollar l).length ≤ l.length := by
  intro n
  induction n with
  | zero =>
    intro l hl
    match l with
    | [] => simp [replaceBackslashDollar]
    | c :: rest => simp at hl
  | succ n ih =>
    intro l hl
    match l with
    | [] => simp [replaceBackslashDollar]
    | [c] => simp [replaceBackslashDollar]
    | c1 :: c2 :: rest =>
      by_cases h : c1 == '\\' && c2 == '$'
      · have hr : replaceBackslashDollar (c1 :: c2 :: rest) =
            '$' :: replaceBackslashDollar rest := by
          simp [replaceBackslashDollar, h]
        rw [hr]
        have := ih rest (by simp at hl; omega)
        simp only [List.length_cons]
        omega
      · have hr : replaceBackslashDollar (c1 :: c2 :: rest) =
            c1 :: replaceBackslashDollar (c2 :: rest) := by
          simp [replaceBackslashDollar, h]
        rw [hr]
        have := ih (c2 :: rest) (by simp at hl ⊢; omega)
        simp only [List.length_cons] at this ⊢
        omega

theorem replaceBD_lt_aux :
    ∀ (n : Nat) (l : List Char), l.length ≤ n → hasBackslashDollar l = true →
      (replaceBackslashDollar l).length < l.length := by
  intro n
  induction n with
  | zero =>
    intro l hl hbs
    match l with
    | [] => simp [hasBackslashDollar] at hbs
    | c :: rest => simp at hl
  | succ n ih =>
    intro l hl hbs
    match l with
    | [] => simp [hasBackslashDollar] at hbs
    | [c] => simp [hasBackslashDollar] at hbs
    | c1 :: c2 :: rest =>
      by_cases h : c1 == '\\' && c2 == '$'
      · have hr : replaceBackslashDollar (c1 :: c2 :: rest) =
            '$' :: replaceBackslashDollar rest := by
          simp [replaceBackslashDollar, h]
        rw [hr]
        have := replaceBD_le_aux rest.length rest (le_refl _)
        simp only [List.length_cons]
        omega
      · have hbs2 : hasBackslashDollar (c2 :: rest) = true := by
          rw [hasBackslashDollar] at hbs
          simp only [h, Bool.false_or] at hbs
          exact hbs
        have hr : replaceBackslashDollar (c1 :: c2 :: rest) =
            c1 :: replaceBackslashDollar (c2 :: rest) := by
          simp [replaceBackslashDollar, h]
        rw [hr]
        have := ih (c2 :: rest) (by simp at hl ⊢; omega) hbs2
        simp only [List.length_cons] at this ⊢
        omega

/-- Whenever `AUTH_SECRET` passes its truthiness check, `test_upload` never
raises `sys.exit`: it always returns a boolean. -/
theorem test_upload_no_exit (cfg : Script2.TestConfig)
    (authSecret apiKey : Option String) (userId roleId : String) (t1 t2 : Nat)
    (portOpen : String → Bool) (path : String) (fE : Bool) (http : HttpOutcome)
    (hs : envTruthy authSecret = true) :
    ∃ b, (Script2.test_upload cfg authSecret apiKey userId roleId t1 t2
            portOpen path fE http).outcome = StepOutcome.returned b := by
  by_cases h1 : (Script2.check_requirements cfg apiKey portOpen).2 <;>
    by_cases h2 : fE <;>
    simp [Script2.test_upload, h1, h2, hs]

/-! ## Claims -/

/-- C1: for every token issuance with fixed secret, user id and role id, the
decoded expiry equals decoded issued-at plus exactly one hour **iff** the two
successive `datetime.utcnow()` readings fall in the same whole second; the
claim's unconditional form fails because `generate_token` reads the clock
twice. -/
theorem c1_token_lifetime (secret userId roleId : String) (t1 t2 : Nat) :
    ((Script1.generate_token secret userId roleId t1 t2).1.exp =
       (Script1.generate_token secret userId roleId t1 t2).1.iat + 3600 ↔ t1 = t2) ∧
    ((Script2.generate_token secret userId roleId t1 t2).1.exp =
       (Script2.generate_token secret userId roleId t1 t2).1.iat + 3600 ↔ t1 = t2) := by
  constructor <;>
    simp only [Script1.generate_token, Script2.generate_token, tokenPayload] <;>
    omega

/-- C1 counterexample: when the second clock reading is one second after the
first, the decoded expiry is 3601 seconds after decoded issued-at, not
exactly one hour. -/
theorem c1_counterexample :
    ¬ ((Script1.generate_token "secret" "161384451518103552" "1386739785283928124"
          0 1).1.exp =
       (Script1.generate_token "secret" "161384451518103552" "1386739785283928124"
          0 1).1.iat + 3600) := by decide

/-- C2 (amended): in the first script, if either environment secret fails its
truthiness check the process exits with code 1 after printing exactly the
corresponding diagnostic, before any token issuance or network call.  In the
second script only the signing secret is checked: when `AUTH_SECRET` is falsy
and the port and file checks pass, the process exits with code 1 from inside
`generate_token`, before signing and before any network call; when
`AUTH_SECRET` is truthy the process never exits there, whatever the state of
`SC2READER_API_KEY`. -/
theorem c2_secret_checks :
    (∀ (authSecret apiKey : Option String) (userId roleId : String)
       (t1 t2 : Nat) (path : String) (fE : Bool) (http : HttpOutcome),
       envTruthy authSecret = false ∨ envTruthy apiKey = false →
       (Script1.script1Main authSecret apiKey userId roleId t1 t2 path fE
           http).outcome = .exited 1 ∧
       (Script1.script1Main authSecret apiKey userId roleId t1 t2 path fE
           http).tokenIssued = false ∧
       (Script1.script1Main authSecret apiKey userId roleId t1 t2 path fE
           http).networkCalled = false ∧
       ((Script1.script1Main authSecret apiKey userId roleId t1 t2 path fE
            http).messages = ["❌ Error: AUTH_SECRET not found in .env.local"] ∨
        (Script1.script1Main authSecret apiKey userId roleId t1 t2 path fE
            http).messages = ["❌ Error: SC2READER_API_KEY not found in .env.local"])) ∧
    (∀ (cfg : Script2.TestConfig) (authSecret apiKey : Option String)
       (userId roleId : String) (t1 t2 : Nat) (portOpen : String → Bool)
       (path : String) (http : HttpOutcome),
       envTruthy authSecret = false →
       (Script2.check_requirements cfg apiKey portOpen).2 = true →
       (Script2.test_upload cfg authSecret apiKey userId roleId t1 t2 portOpen
           path true http).outcome = .exited 1 ∧
       (Script2.test_upload cfg authSecret apiKey userId roleId t1 t2 portOpen
           path true http).tokenIssued = false ∧
       (Script2.test_upload cfg authSecret apiKey userId roleId t1 t2 portOpen
           path true http).networkCalled = false ∧
       "❌ Error: AUTH_SECRET not found in .env.local" ∈
         (Script2.test_upload cfg authSecret apiKey userId roleId t1 t2 portOpen
           path true http).messages) ∧
    (∀ (cfg : Script2.TestConfig) (authSecret apiKey : Option String)
       (userId roleId : String) (t1 t2 : Nat) (portOpen : String → Bool)
       (path : String) (fE : Bool) (http : HttpOutcome),
       envTruthy authSecret = true →
       ∃ b, (Script2.test_upload cfg authSecret apiKey userId roleId t1 t2
               portOpen path fE http).outcome = .returned b) := by
  refine ⟨?_, ?_, ?_⟩
  · intro authSecret apiKey userId roleId t1 t2 path fE http h
    by_cases ha : envTruthy authSecret
    · rcases h with h | h
      · rw [ha] at h; cases h
      · simp [Script1.script1Main, ha, h]
    · simp at ha
      simp [Script1.script1Main, ha]
  · intro cfg authSecret apiKey userId roleId t1 t2 portOpen path http hs hr
    simp [Script2.test_upload, hs, hr]
  · intro cfg authSecret apiKey userId roleId t1 t2 portOpen path fE http hs
    exact test_upload_no_exit cfg authSecret apiKey userId roleId t1 t2
      portOpen path fE http hs

/-- C2 witness: the three amended statements at concrete inputs — the first
script exits 1 when `AUTH_SECRET` is missing; the second script exits 1 when
`AUTH_SECRET` is missing and the checks pass; and with `AUTH_SECRET` present
but `SC2READER_API_KEY` missing the second script does not exit. -/
theorem c2_witness :
    (Script1.script1Main none (some "k") "u" "r" 0 0 "p" true
        .connectionError).outcome = .exited 1 ∧
    (Script2.test_upload Script2.test3 none (some "k") "u" "r" 0 0
        (fun _ => true) "p" true .connectionError).outcome = .exited 1 ∧
    (∃ b, (Script2.test_upload Script2.test3 (some "s") none "u" "r" 0 0
        (fun _ => true) "p" true .connectionError).outcome = .returned b) :=
  ⟨(c2_secret_checks.1 none (some "k") "u" "r" 0 0 "p" true .connectionError
      (Or.inl rfl)).1,
   (c2_secret_checks.2.1 Script2.test3 none (some "k") "u" "r" 0 0
      (fun _ => true) "p" .connectionError rfl (by decide)).1,
   c2_secret_checks.2.2 Script2.test3 (some "s") none "u" "r" 0 0
      (fun _ => true) "p" true .connectionError rfl⟩

/-- C2 counterexample: in the second script with `SC2READER_API_KEY` absent
(and `AUTH_SECRET` present), the run does not exit — it issues a token, makes
the network call and succeeds, refuting the claim that the absence of either
secret forces an exit with code 1 before token issuance and the network
call. -/
theorem c2_counterexample :
    (Script2.test_upload Script2.test3 (some "s") none "u" "r" 0 0
        (fun _ => true) "p.SC2Replay" true
        (.response 200 (some (.obj [("success", Json.bool true),
          ("replay", Json.obj [("id", Json.str "X")])])) "")).outcome =
      .returned true ∧
    (Script2.test_upload Script2.test3 (some "s") none "u" "r" 0 0
        (fun _ => true) "p.SC2Replay" true
        (.response 200 (some (.obj [("success", Json.bool true),
          ("replay", Json.obj [("id", Json.str "X")])])) "")).tokenIssued = true ∧
    (Script2.test_upload Script2.test3 (some "s") none "u" "r" 0 0
        (fun _ => true) "p.SC2Replay" true
        (.response 200 (some (.obj [("success", Json.bool true),
          ("replay", Json.obj [("id", Json.str "X")])])) "")).networkCalled =
      true := by
  refine ⟨by decide, by decide, by decide⟩

/-- C3 (amended): on a connection-refused POST both runners return failure and
print a message naming the target base URL; the first script additionally
prints the exact local command (the `npm run dev` invocation), while the
second prints only a generic hint. -/
theorem c3_connection_refused :
    (∀ (secret apiKey userId roleId : String) (t1 t2 : Nat) (path : String),
       (Script1.upload_replay secret apiKey userId roleId t1 t2 path true
           .connectionError).outcome = .returned false ∧
       ("❌ Connection Error: Could not connect to " ++ Script1.NEXT_API_URL) ∈
         (Script1.upload_replay secret apiKey userId roleId t1 t2 path true
           .connectionError).messages ∧
       ("   SC2READER_API_URL=" ++ pyQuote ++ Script1.SC2READER_API_URL ++
           pyQuote ++ " SC2READER_API_KEY=" ++ pyQuote ++ apiKey ++ pyQuote ++
           " npm run dev") ∈
         (Script1.upload_replay secret apiKey userId roleId t1 t2 path true
           .connectionError).messages) ∧
    (∀ (cfg : Script2.TestConfig) (authSecret apiKey : Option String)
       (userId roleId : String) (t1 t2 : Nat) (portOpen : String → Bool)
       (path : String),
       envTruthy authSecret = true →
       (Script2.check_requirements cfg apiKey portOpen).2 = true →
       (Script2.test_upload cfg authSecret apiKey userId roleId t1 t2 portOpen
           path true .connectionError).outcome = .returned false ∧
       ("❌ FAILED: Could not connect to " ++ cfg.api_url) ∈
         (Script2.test_upload cfg authSecret apiKey userId roleId t1 t2 portOpen
           path true .connectionError).messages ∧
       "   Make sure the API server is running" ∈
         (Script2.test_upload cfg authSecret apiKey userId roleId t1 t2 portOpen
           path true .connectionError).messages) := by
  constructor
  · intro secret apiKey userId roleId t1 t2 path
    simp [Script1.upload_replay, Script1.postResult1]
  · intro cfg authSecret apiKey userId roleId t1 t2 portOpen path hs hr
    simp [Script2.test_upload, Script2.postResult2, hs, hr]

/-- C3 witness: the amended statement at concrete inputs for both scripts. -/
theorem c3_witness :
    ("   SC2READER_API_URL=" ++ pyQuote ++ Script1.SC2READER_API_URL ++
        pyQuote ++ " SC2READER_API_KEY=" ++ pyQuote ++ "k" ++ pyQuote ++
        " npm run dev") ∈
      (Script1.upload_replay "s" "k" "u" "r" 0 0 "p" true
        .connectionError).messages ∧
    ("❌ FAILED: Could not connect to " ++ Script2.test3.api_url) ∈
      (Script2.test_upload Script2.test3 (some "s") (some "k") "u" "r" 0 0
        (fun _ => true) "p" true .connectionError).messages :=
  ⟨(c3_connection_refused.1 "s" "k" "u" "r" 0 0 "p").2.2,
   (c3_connection_refused.2 Script2.test3 (some "s") (some "k") "u" "r" 0 0
      (fun _ => true) "p" rfl (by decide)).2.1⟩

/-- C3 counterexample: in the second script a connection-refused run prints no
message mentioning a local start command (neither the `npm run dev` invocation
nor the `uvicorn` one), refuting the claim that both runners name the expected
local command. -/
theorem c3_counterexample :
    (Script2.test_upload Script2.test3 (some "s") (some "k") "u" "r" 0 0
        (fun _ => true) "p" true .connectionError).outcome = .returned false ∧
    ((Script2.test_upload Script2.test3 (some "s") (some "k") "u" "r" 0 0
        (fun _ => true) "p" true .connectionError).messages.all
      (fun m => !(strHasSub m "npm run dev") && !(strHasSub m "uvicorn"))) =
      true := by
  refine ⟨by decide, by decide⟩

/-- C5: with a nonexistent file path both runners return failure and make no
network call; the file-not-found diagnostic is printed (in the second script,
provided the port requirements passed — otherwise it fails even earlier, still
without a network call). -/
theorem c5_missing_file :
    (∀ (secret apiKey userId roleId : String) (t1 t2 : Nat) (path : String)
       (http : HttpOutcome),
       (Script1.upload_replay secret apiKey userId roleId t1 t2 path false
           http).networkCalled = false ∧
       (Script1.upload_replay secret apiKey userId roleId t1 t2 path false
           http).outcome = .returned false ∧
       ("❌ Error: Replay file not found: " ++ path) ∈
         (Script1.upload_replay secret apiKey userId roleId t1 t2 path false
           http).messages) ∧
    (∀ (cfg : Script2.TestConfig) (authSecret apiKey : Option String)
       (userId roleId : String) (t1 t2 : Nat) (portOpen : String → Bool)
       (path : String) (http : HttpOutcome),
       (Script2.test_upload cfg authSecret apiKey userId roleId t1 t2 portOpen
           path false http).networkCalled = false ∧
       (Script2.test_upload cfg authSecret apiKey userId roleId t1 t2 portOpen
           path false http).outcome = .returned false ∧
       ((Script2.check_requirements cfg apiKey portOpen).2 = true →
         ("❌ Error: Replay file not found: " ++ path) ∈
           (Script2.test_upload cfg authSecret apiKey userId roleId t1 t2
             portOpen path false http).messages)) := by
  constructor
  · intro secret apiKey userId roleId t1 t2 path http
    simp [Script1.upload_replay]
  · intro cfg authSecret apiKey userId roleId t1 t2 portOpen path http
    by_cases h1 : (Script2.check_requirements cfg apiKey portOpen).2 <;>
      simp [Script2.test_upload, h1]

/-- C5 witness: at a concrete nonexistent path the second runner prints the
file-not-found diagnostic and the first makes no network call. -/
theorem c5_witness :
    ("❌ Error: Replay file not found: " ++ "p") ∈
      (Script2.test_upload Script2.test3 (some "s") (some "k") "u" "r" 0 0
        (fun _ => true) "p" false .connectionError).messages ∧
    (Script1.upload_replay "s" "k" "u" "r" 0 0 "p" false
        .connectionError).networkCalled = false :=
  ⟨(c5_missing_file.2 Script2.test3 (some "s") (some "k") "u" "r" 0 0
      (fun _ => true) "p" .connectionError).2.2 (by decide),
   (c5_missing_file.1 "s" "k" "u" "r" 0 0 "p" .connectionError).1⟩

/-- C4: with the signing secret present, step `all` runs the three scenario
descriptors exactly once each in sorted key order `1, 2, 3`, prints one
summary line per collected result, exits 0 exactly when every scenario
succeeded, and with exactly one failing scenario exits 1 with exactly one
`FAIL` summary line. -/
theorem c4_run_all (authSecret apiKey : Option String) (userId roleId : String)
    (t1 t2 : Nat) (portOpen : String → Bool) (path : String) (fE : Bool)
    (httpOf : String → HttpOutcome) (hs : envTruthy authSecret = true) :
    (Script2.mainAll authSecret apiKey userId roleId t1 t2 portOpen path fE
        httpOf).results.map Prod.fst = ["1", "2", "3"] ∧
    (Script2.mainAll authSecret apiKey userId roleId t1 t2 portOpen path fE
        httpOf).summary.length =
      (Script2.mainAll authSecret apiKey userId roleId t1 t2 portOpen path fE
        httpOf).results.length ∧
    ((Script2.mainAll authSecret apiKey userId roleId t1 t2 portOpen path fE
        httpOf).exitCode = 0 ↔
      (Script2.mainAll authSecret apiKey userId roleId t1 t2 portOpen path fE
        httpOf).results.all (fun kb => kb.2) = true) ∧
    (((Script2.mainAll authSecret apiKey userId roleId t1 t2 portOpen path fE
         httpOf).results.filter (fun kb => !kb.2)).length = 1 →
      (Script2.mainAll authSecret apiKey userId roleId t1 t2 portOpen path fE
          httpOf).exitCode = 1 ∧
      ((Script2.mainAll authSecret apiKey userId roleId t1 t2 portOpen path fE
          httpOf).summary.filter (fun m => strHasSub m "❌ FAIL")).length = 1) := by
  obtain ⟨b1, h1⟩ := test_upload_no_exit (Script2.configOf "1") authSecret
    apiKey userId roleId t1 t2 portOpen path fE (httpOf "1") hs
  obtain ⟨b2, h2⟩ := test_upload_no_exit (Script2.configOf "2") authSecret
    apiKey userId roleId t1 t2 portOpen path fE (httpOf "2") hs
  obtain ⟨b3, h3⟩ := test_upload_no_exit (Script2.configOf "3") authSecret
    apiKey userId roleId t1 t2 portOpen path fE (httpOf "3") hs
  have hk : Script2.sortedKeys = ["1", "2", "3"] := by decide
  have hall : Script2.mainAll authSecret apiKey userId roleId t1 t2 portOpen
      path fE httpOf =
      { results := [("1", b1), ("2", b2), ("3", b3)]
        summary := Script2.summaryLines [("1", b1), ("2", b2), ("3", b3)]
        exitCode :=
          if [("1", b1), ("2", b2), ("3", b3)].all (fun kb => kb.2) then 0
          else 1 } := by
    simp [Script2.mainAll, hk, Script2.collectResults, h1, h2, h3]
  rw [hall]
  cases b1 <;> cases b2 <;> cases b3 <;>
    exact ⟨by decide, by decide, by decide, by decide⟩

/-- C4 witness: with scenario `2` failing on a refused connection and the
other two succeeding, step `all` exits 1 and the summary has exactly one
`FAIL` line. -/
theorem c4_witness :
    (Script2.mainAll (some "s") (some "k") "u" "r" 0 0 (fun _ => true) "p" true
        (fun k => if k = "2" then HttpOutcome.connectionError
          else HttpOutcome.response 200 (some (replayBody "X")) "")).exitCode =
      1 ∧
    ((Script2.mainAll (some "s") (some "k") "u" "r" 0 0 (fun _ => true) "p"
        true
        (fun k => if k = "2" then HttpOutcome.connectionError
          else HttpOutcome.response 200 (some (replayBody "X")) "")).summary.filter
      (fun m => strHasSub m "❌ FAIL")).length = 1 :=
  (c4_run_all (some "s") (some "k") "u" "r" 0 0 (fun _ => true) "p" true
    (fun k => if k = "2" then HttpOutcome.connectionError
      else HttpOutcome.response 200 (some (replayBody "X")) "") rfl).2.2.2
    (by decide)

/-- C6: on a status-200 response whose JSON body is
`success: true, replay: id: X`, both runners return success and print the
record id `X`; when a fingerprint sub-record is present its matchup, race,
player name and map fields are also printed. -/
theorem c6_success_response (secret apiKey : String)
    (authSecret apiKey2 : Option String) (cfg : Script2.TestConfig)
    (userId roleId : String) (t1 t2 : Nat) (portOpen : String → Bool)
    (path text : String) (idStr mu rc pn mp : String)
    (hs : envTruthy authSecret = true)
    (hr : (Script2.check_requirements cfg apiKey2 portOpen).2 = true) :
    ((Script1.upload_replay secret apiKey userId roleId t1 t2 path true
        (.response 200 (some (replayBody idStr)) text)).outcome =
      .returned true ∧
     ("   Replay ID: " ++ idStr) ∈
       (Script1.upload_replay secret apiKey userId roleId t1 t2 path true
         (.response 200 (some (replayBody idStr)) text)).messages) ∧
    ((Script1.upload_replay secret apiKey userId roleId t1 t2 path true
        (.response 200 (some (replayBodyFp idStr mu rc pn mp)) text)).outcome =
      .returned true ∧
     ("   Replay ID: " ++ idStr) ∈
       (Script1.upload_replay secret apiKey userId roleId t1 t2 path true
         (.response 200 (some (replayBodyFp idStr mu rc pn mp)) text)).messages ∧
     ("   Matchup: " ++ mu) ∈
       (Script1.upload_replay secret apiKey userId roleId t1 t2 path true
         (.response 200 (some (replayBodyFp idStr mu rc pn mp)) text)).messages ∧
     ("   Race: " ++ rc) ∈
       (Script1.upload_replay secret apiKey userId roleId t1 t2 path true
         (.response 200 (some (replayBodyFp idStr mu rc pn mp)) text)).messages ∧
     ("   Player: " ++ pn) ∈
       (Script1.upload_replay secret apiKey userId roleId t1 t2 path true
         (.response 200 (some (replayBodyFp idStr mu rc pn mp)) text)).messages ∧
     ("   Map: " ++ mp) ∈
       (Script1.upload_replay secret apiKey userId roleId t1 t2 path true
         (.response 200 (some (replayBodyFp idStr mu rc pn mp)) text)).messages) ∧
    ((Script2.test_upload cfg authSecret apiKey2 userId roleId t1 t2 portOpen
        path true (.response 200 (some (replayBody idStr)) text)).outcome =
      .returned true ∧
     ("   Replay ID: " ++ idStr) ∈
       (Script2.test_upload cfg authSecret apiKey2 userId roleId t1 t2 portOpen
         path true (.response 200 (some (replayBody idStr)) text)).messages) ∧
    ((Script2.test_upload cfg authSecret apiKey2 userId roleId t1 t2 portOpen
        path true
        (.response 200 (some (replayBodyFp idStr mu rc pn mp)) text)).outcome =
      .returned true ∧
     ("   Replay ID: " ++ idStr) ∈
       (Script2.test_upload cfg authSecret apiKey2 userId roleId t1 t2 portOpen
         path true
         (.response 200 (some (replayBodyFp idStr mu rc pn mp)) text)).messages ∧
     ("   Matchup: " ++ mu) ∈
       (Script2.test_upload cfg authSecret apiKey2 userId roleId t1 t2 portOpen
         path true
         (.response 200 (some (replayBodyFp idStr mu rc pn mp)) text)).messages ∧
     ("   Map: " ++ mp) ∈
       (Script2.test_upload cfg authSecret apiKey2 userId roleId t1 t2 portOpen
         path true
         (.response 200 (some (replayBodyFp idStr mu rc pn mp)) text)).messages) := by
  refine ⟨?_, ?_, ?_, ?_⟩ <;>
    simp [Script1.upload_replay, Script1.postResult1, Script2.test_upload,
      Script2.postResult2, successBranch_replayBody, successBranch_replayBodyFp,
      hs, hr]

/-- C6 witness: the success shape at concrete inputs. -/
theorem c6_witness :
    (Script1.upload_replay "s" "k" "u" "r" 0 0 "p" true
        (.response 200 (some (replayBody "X")) "")).outcome = .returned true ∧
    ("   Replay ID: " ++ "X") ∈
      (Script2.test_upload Script2.test3 (some "s") (some "k") "u" "r" 0 0
        (fun _ => true) "p" true (.response 200 (some (replayBody "X")) "")).messages :=
  ⟨((c6_success_response "s" "k" (some "s") (some "k") Script2.test3 "u" "r" 0 0
      (fun _ => true) "p" "" "X" "m" "t" "n" "q" rfl (by decide)).1).1,
   ((c6_success_response "s" "k" (some "s") (some "k") Script2.test3 "u" "r" 0 0
      (fun _ => true) "p" "" "X" "m" "t" "n" "q" rfl (by decide)).2.2.1).2⟩

/-- C7: on a non-200 response whose body is not parseable as JSON, both
runners return failure without an unhandled error, printing the raw response
text truncated to 200 characters. -/
theorem c7_non200_unparseable (secret apiKey : String)
    (authSecret apiKey2 : Option String) (cfg : Script2.TestConfig)
    (userId roleId : String) (t1 t2 : Nat) (portOpen : String → Bool)
    (path : String) (status : Nat) (text : String)
    (h200 : status ≠ 200)
    (hs : envTruthy authSecret = true)
    (hr : (Script2.check_requirements cfg apiKey2 portOpen).2 = true) :
    ((Script1.upload_replay secret apiKey userId roleId t1 t2 path true
        (.response status none text)).outcome = .returned false ∧
     ("   Response: " ++ text.take 200) ∈
       (Script1.upload_replay secret apiKey userId roleId t1 t2 path true
         (.response status none text)).messages) ∧
    ((Script2.test_upload cfg authSecret apiKey2 userId roleId t1 t2 portOpen
        path true (.response status none text)).outcome = .returned false ∧
     ("   Response: " ++ text.take 200) ∈
       (Script2.test_upload cfg authSecret apiKey2 userId roleId t1 t2 portOpen
         path true (.response status none text)).messages) := by
  constructor <;>
    simp [Script1.upload_replay, Script1.postResult1, Script2.test_upload,
      Script2.postResult2, non200Branch, hs, hr, h200]

/-- C7 witness: a 500 response with unparseable body at concrete inputs. -/
theorem c7_witness :
    (Script1.upload_replay "s" "k" "u" "r" 0 0 "p" true
        (.response 500 none "oops")).outcome = .returned false ∧
    ("   Response: " ++ "oops".take 200) ∈
      (Script2.test_upload Script2.test3 (some "s") (some "k") "u" "r" 0 0
        (fun _ => true) "p" true (.response 500 none "oops")).messages :=
  ⟨((c7_non200_unparseable "s" "k" (some "s") (some "k") Script2.test3 "u" "r"
      0 0 (fun _ => true) "p" 500 "oops" (by decide) rfl (by decide)).1).1,
   ((c7_non200_unparseable "s" "k" (some "s") (some "k") Script2.test3 "u" "r"
      0 0 (fun _ => true) "p" 500 "oops" (by decide) rfl (by decide)).2).2⟩

/-- C8: for every scenario of the second script, when some required port is
not listening the runner makes no network call, issues no token, returns
failure, and its output is exactly the scenario header followed by the list of
missing `service:port` markers and, for each of them, the exact start
commands. -/
theorem c8_port_requirements (cfg : Script2.TestConfig)
    (_hcfg : cfg ∈ Script2.TESTS.map Prod.snd)
    (authSecret apiKey : Option String) (userId roleId : String) (t1 t2 : Nat)
    (portOpen : String → Bool) (path : String) (fE : Bool) (http : HttpOutcome)
    (hmiss : Script2.missingOf cfg portOpen ≠ []) :
    (Script2.test_upload cfg authSecret apiKey userId roleId t1 t2 portOpen
        path fE http).networkCalled = false ∧
    (Script2.test_upload cfg authSecret apiKey userId roleId t1 t2 portOpen
        path fE http).tokenIssued = false ∧
    (Script2.test_upload cfg authSecret apiKey userId roleId t1 t2 portOpen
        path fE http).outcome = .returned false ∧
    (Script2.test_upload cfg authSecret apiKey userId roleId t1 t2 portOpen
        path fE http).messages =
      [String.mk (List.replicate 60 '='), cfg.name,
       String.mk (List.replicate 60 '='),
       "📤 API: " ++ cfg.api_url,
       "🔧 sc2reader: " ++ cfg.sc2reader_url,
       "📁 File: " ++ path, ""] ++
      ["❌ Missing required services: " ++
         String.intercalate ", " (Script2.missingOf cfg portOpen), ""] ++
      (Script2.missingOf cfg portOpen).flatMap
        (Script2.startCommands cfg apiKey) ++ [""] := by
  have h2 : (Script2.check_requirements cfg apiKey portOpen).2 = false := by
    rcases hlm : Script2.missingOf cfg portOpen with _ | ⟨m, ms⟩
    · exact absurd hlm hmiss
    · simp [Script2.check_requirements, hlm]
  have h1 : (Script2.check_requirements cfg apiKey portOpen).1 =
      ["❌ Missing required services: " ++
         String.intercalate ", " (Script2.missingOf cfg portOpen), ""] ++
      (Script2.missingOf cfg portOpen).flatMap
        (Script2.startCommands cfg apiKey) ++ [""] := by
    rcases hlm : Script2.missingOf cfg portOpen with _ | ⟨m, ms⟩
    · exact absurd hlm hmiss
    · simp [Script2.check_requirements, hlm]
  refine ⟨?_, ?_, ?_, ?_⟩ <;>
    simp [Script2.test_upload, h2, h1]

/-- C8 witness: scenario 1 with no port listening reports both missing
services and makes no network call. -/
theorem c8_witness :
    (Script2.test_upload Script2.test1 (some "s") (some "k") "u" "r" 0 0
        (fun _ => false) "p" true .connectionError).networkCalled = false ∧
    (Script2.test_upload Script2.test1 (some "s") (some "k") "u" "r" 0 0
        (fun _ => false) "p" true .connectionError).outcome = .returned false :=
  ⟨(c8_port_requirements Script2.test1 (by decide) (some "s") (some "k") "u"
      "r" 0 0 (fun _ => false) "p" true .connectionError (by decide)).1,
   (c8_port_requirements Script2.test1 (by decide) (some "s") (some "k") "u"
      "r" 0 0 (fun _ => false) "p" true .connectionError (by decide)).2.2.1⟩

/-- C10: on a status-200 response whose body has a truthy `success` but no
`replay` record with an `id` key, the resulting lookup exception is caught by
the generic handler and both runners return failure instead of crashing. -/
theorem c10_missing_replay_id (secret apiKey : String)
    (authSecret apiKey2 : Option String) (cfg : Script2.TestConfig)
    (userId roleId : String) (t1 t2 : Nat) (portOpen : String → Bool)
    (path text : String) (data : Json)
    (hs : envTruthy authSecret = true)
    (hr : (Script2.check_requirements cfg apiKey2 portOpen).2 = true)
    (hsv : ∃ sv, jsonGet data "success" = .ok sv ∧ jsonTruthy sv = true)
    (hid : ∀ rep, jsonIndex data "replay" = .ok rep →
      ∃ e, jsonIndex rep "id" = .error e) :
    (Script1.upload_replay secret apiKey userId roleId t1 t2 path true
        (.response 200 (some data) text)).outcome = .returned false ∧
    (Script2.test_upload cfg authSecret apiKey2 userId roleId t1 t2 portOpen
        path true (.response 200 (some data) text)).outcome =
      .returned false := by
  have hsb : ∃ e, (successBranch data).2 = Except.error e := by
    obtain ⟨sv, hget, htr⟩ := hsv
    unfold successBranch
    rw [hget]
    simp only [htr, if_true]
    cases hrep : jsonIndex data "replay" with
    | error e => simp
    | ok rep =>
      obtain ⟨e, hide⟩ := hid rep hrep
      simp [hide]
  obtain ⟨e, he⟩ := hsb
  constructor
  · simp [Script1.upload_replay, Script1.postResult1, he]
  · simp [Script2.test_upload, Script2.postResult2, he, hs, hr]

/-- C10 witness: a 200 body with `success: true` and no `replay` key. -/
theorem c10_witness :
    (Script1.upload_replay "s" "k" "u" "r" 0 0 "p" true
        (.response 200 (some (Json.obj [("success", Json.bool true)])) "")).outcome =
      .returned false ∧
    (Script2.test_upload Script2.test3 (some "s") (some "k") "u" "r" 0 0
        (fun _ => true) "p" true
        (.response 200 (some (Json.obj [("success", Json.bool true)])) "")).outcome =
      .returned false :=
  c10_missing_replay_id "s" "k" (some "s") (some "k") Script2.test3 "u" "r" 0 0
    (fun _ => true) "p" "" (Json.obj [("success", Json.bool true)]) rfl
    (by decide) ⟨Json.bool true, rfl, rfl⟩
    (fun rep h => by simp [jsonIndex, lookupField] at h)

/-- C9: the second script signs with the environment secret in which every
literal backslash-dollar sequence is replaced by a dollar sign, the first
script signs with the raw secret, and whenever the secret contains a
backslash-dollar sequence the two signing keys differ. -/
theorem c9_secret_escaping (secret userId roleId : String) (t1 t2 : Nat) :
    (Script2.generate_token secret userId roleId t1 t2).2 =
      String.mk (replaceBackslashDollar secret.toList) ∧
    (Script1.generate_token secret userId roleId t1 t2).2 = secret ∧
    (hasBackslashDollar secret.toList = true →
      (Script2.generate_token secret userId roleId t1 t2).2 ≠
        (Script1.generate_token secret userId roleId t1 t2).2) := by
  refine ⟨rfl, rfl, fun h heq => ?_⟩
  have hlt := replaceBD_lt_aux secret.toList.length secret.toList (le_refl _) h
  have hlen := congrArg String.length heq
  have h1 : (Script2.generate_token secret userId roleId t1 t2).2.length =
      (replaceBackslashDollar secret.toList).length := rfl
  have h2 : (Script1.generate_token secret userId roleId t1 t2).2.length =
      secret.toList.length := rfl
  rw [h1, h2] at hlen
  omega

/-- C9 witness: the secret `a BACKSLASH DOLLAR b` contains the sequence and the
two scripts sign with different keys for it. -/
theorem c9_witness :
    hasBackslashDollar ("a\\$b".toList) = true ∧
    (Script2.generate_token "a\\$b" "u" "r" 0 0).2 ≠
      (Script1.generate_token "a\\$b" "u" "r" 0 0).2 :=
  ⟨by decide, (c9_secret_escaping "a\\$b" "u" "r" 0 0).2.2 (by decide)⟩

end UploadFlow
